import Mathlib

/-!
Shallow embedding of the YEPcustos landed-cost engine (src/src/App.jsx).

Numbers are modelled as rationals (ℚ).  The JavaScript `Infinity` tier
threshold is modelled as `Option ℚ` with `none` meaning unbounded.
JavaScript expressions that throw at runtime (reading `.rate` of
`undefined` when a tier table is empty) are modelled with `Option`:
`none` means the computation fails.
-/

namespace YEPcustos

/-- A freight rate tier: `{ threshold, rate }`.  `threshold = none` models
the JavaScript `Infinity` sentinel (unbounded terminal tier). -/
structure Tier where
  threshold : Option ℚ
  rate : ℚ
deriving DecidableEq, Repr

/-- Shipping modes (the `MODES` enumeration in App.jsx). -/
inductive Mode where
  | aereoExpress   -- air express
  | aereoCarga     -- air cargo
  | maritimoLCL    -- sea LCL
  | maritimoFCL20  -- sea FCL 20ft
  | maritimoFCL40  -- sea FCL 40ft
deriving DecidableEq, Repr

/-- Incoterms (the `INCOTERMS` enumeration in App.jsx). -/
inductive Incoterm where
  | EXW
  | FOB
  | CIF
deriving DecidableEq, Repr

/-- The configuration record: the React state that the cost pipeline reads.
Field names follow the `useState` variables of App.jsx. -/
structure Config where
  productOrigin : String
  shipOrigin : String
  mode : Mode
  incoterm : Incoterm
  supplierCurrency : String
  unitPrice : ℚ
  qty : ℚ
  unitWeightKg : ℚ
  unitLcm : ℚ
  unitWcm : ℚ
  unitHcm : ℚ
  fx : List (String × ℚ)
  insurancePct : ℚ
  brokerageFee : ℚ
  portTHC : ℚ
  otherFees : ℚ
  localOriginTransport : ℚ
  dutyPct : ℚ
  ignoreDuty : Bool
  originTariffEnabled : Bool
  originDutyMap : List (String × ℚ)
  vatPct : ℚ
  vatRecoverable : Bool
  airTiers : List Tier
  airVolFactor : ℚ
  airMinChargeKg : ℚ
  airFixedFees : ℚ
  lclTiers : List Tier
  lclMinCbm : ℚ
  lclFixedFees : ℚ
  fcl20Price : ℚ
  fcl40Price : ℚ
  fclFixedFees : ℚ

/-- Container capacity (`FCL_CAPACITY`) of a 20ft container, 33.2 m³. -/
def FCL_CAPACITY_20 : ℚ := 332/10

/-- Container capacity (`FCL_CAPACITY`) of a 40ft container, 67.7 m³. -/
def FCL_CAPACITY_40 : ℚ := 677/10

/-- Predicate `chargeable <= t.threshold` where `none` is `Infinity` (always ≥). -/
def leThreshold (x : ℚ) (t : Option ℚ) : Bool :=
  match t with
  | none => true
  | some v => decide (x ≤ v)

/-- The tier lookup of `calcFreight`:
`tiers.find(t => x <= t.threshold)?.rate ?? tiers[tiers.length-1].rate`.
On an empty list the JavaScript dereferences `undefined.rate` and throws;
this is modelled as `none`. -/
def tierRate (tiers : List Tier) (x : ℚ) : Option ℚ :=
  match tiers.find? (fun t => leThreshold x t.threshold) with
  | some t => some t.rate
  | none => tiers.getLast?.map Tier.rate

/-- Unit volume `(unitLcm/100) * (unitWcm/100) * (unitHcm/100)`. -/
def unitVolumeM3 (c : Config) : ℚ :=
  (c.unitLcm / 100) * (c.unitWcm / 100) * (c.unitHcm / 100)

/-- JavaScript `Math.ceil` on a rational, as an integer. -/
def jsCeil (x : ℚ) : ℤ := ⌈x⌉

/-- JavaScript `Math.round` on a rational (rounds half toward +∞). -/
def jsRound (x : ℚ) : ℤ := ⌊x + 1/2⌋

/-- The function `calcFreight(q)`, cost component only (the `basisLabel` string is purely
descriptive).  `none` models the runtime TypeError raised when a tier table
is empty and the `?? tiers[tiers.length-1].rate` fallback dereferences
`undefined`. -/
def calcFreight (c : Config) (q : ℚ) : Option ℚ :=
  let volM3 := unitVolumeM3 c * q
  let kg := c.unitWeightKg * q
  match c.mode with
  | .aereoExpress | .aereoCarga =>
      let volWeight := volM3 * c.airVolFactor
      let chargeable := max (max kg volWeight) c.airMinChargeKg
      (tierRate c.airTiers chargeable).map
        (fun rate => chargeable * rate + c.airFixedFees)
  | .maritimoLCL =>
      let cbm := max volM3 c.lclMinCbm
      (tierRate c.lclTiers cbm).map
        (fun rate => cbm * rate + c.lclFixedFees)
  | .maritimoFCL20 =>
      let containers : ℤ := max 1 (jsCeil (volM3 / FCL_CAPACITY_20))
      some (c.fcl20Price * (containers : ℚ) + c.fclFixedFees)
  | .maritimoFCL40 =>
      let containers : ℤ := max 1 (jsCeil (volM3 / FCL_CAPACITY_40))
      some (c.fcl40Price * (containers : ℚ) + c.fclFixedFees)

/-- FCL container count for a given total volume and capacity:
`Math.max(1, Math.ceil(volM3 / cap))`. -/
def fclContainers (volM3 cap : ℚ) : ℤ := max 1 (jsCeil (volM3 / cap))

/-- FCL utilization diagnostic: `volM3 / (containers * cap)`. -/
def fclUtilization (volM3 cap : ℚ) : ℚ := volM3 / ((fclContainers volM3 cap : ℚ) * cap)

/-- FX rate `fx[supplierCurrency] ?? 1`. -/
def fxRate (c : Config) : ℚ := (c.fx.lookup c.supplierCurrency).getD 1

/-- goods value in EUR at quantity `q`: `(unitPrice * q) * (fx[currency] ?? 1)`. -/
def goodsEURat (c : Config) (q : ℚ) : ℚ := c.unitPrice * q * fxRate c

/-- Goods value `goodsEUR = (unitPrice * qty) * (fx[supplierCurrency] ?? 1)`. -/
def goodsEUR (c : Config) : ℚ := goodsEURat c c.qty

/-- The `freight` memo: `calcFreight(qty)`. -/
def freightCost (c : Config) : Option ℚ := calcFreight c c.qty

/-- Insurance `insuranceEUR = (goodsEUR + freight.cost) * (insurancePct / 100)`. -/
def insuranceEUR (c : Config) : Option ℚ :=
  (freightCost c).map (fun fr => (goodsEUR c + fr) * (c.insurancePct / 100))

/-- Customs base `((incoterm === "CIF") ? goodsEUR : goodsEUR + freight.cost
+ insuranceEUR) + localOriginTransport`. -/
def customsBase (c : Config) : Option ℚ := do
  let fr ← freightCost c
  let ins ← insuranceEUR c
  pure ((if c.incoterm = .CIF then goodsEUR c else goodsEUR c + fr + ins)
        + c.localOriginTransport)

/-- Duty rate `dutyRateFromOrigin = originTariffEnabled ?
(originDutyMap[productOrigin] ?? originDutyMap["Outro"] ?? 0) : dutyPct`. -/
def dutyRateFromOrigin (c : Config) : ℚ :=
  if c.originTariffEnabled then
    (((c.originDutyMap.lookup c.productOrigin).orElse
        (fun _ => c.originDutyMap.lookup "Outro")).getD 0)
  else c.dutyPct

/-- Effective duty `effectiveDutyPct = ignoreDuty ? 0 : dutyRateFromOrigin`. -/
def effectiveDutyPct (c : Config) : ℚ :=
  if c.ignoreDuty then 0 else dutyRateFromOrigin c

/-- Duty amount `dutyEUR = customsBase * (effectiveDutyPct / 100)`. -/
def dutyEUR (c : Config) : Option ℚ :=
  (customsBase c).map (fun b => b * (effectiveDutyPct c / 100))

/-- VAT base `customsBase + dutyEUR + brokerageFee + portTHC + otherFees`. -/
def vatBase (c : Config) : Option ℚ := do
  pure ((← customsBase c) + (← dutyEUR c) + c.brokerageFee + c.portTHC + c.otherFees)

/-- VAT amount `vatEUR = vatBase * (vatPct / 100)`. -/
def vatEUR (c : Config) : Option ℚ :=
  (vatBase c).map (fun b => b * (c.vatPct / 100))

/-- Landed cost excluding VAT: `goodsEUR + localOriginTransport + freight.cost +
insuranceEUR + dutyEUR + brokerageFee + portTHC + otherFees`. -/
def landedExVAT (c : Config) : Option ℚ := do
  pure (goodsEUR c + c.localOriginTransport + (← freightCost c)
        + (← insuranceEUR c) + (← dutyEUR c)
        + c.brokerageFee + c.portTHC + c.otherFees)

/-- Landed cost including VAT: `landedExVAT + (vatRecoverable ? 0 : vatEUR)`. -/
def landedInclVAT (c : Config) : Option ℚ := do
  let ex ← landedExVAT c
  let v ← vatEUR c
  pure (ex + (if c.vatRecoverable then 0 else v))

/-- JavaScript `qty || 1`: the divisor used by `unitLanded` (0 is falsy). -/
def orOne (q : ℚ) : ℚ := if q = 0 then 1 else q

/-- Unit landed cost `landedInclVAT / (qty || 1)`. -/
def unitLanded (c : Config) : Option ℚ :=
  (landedInclVAT c).map (fun t => t / orOne c.qty)

/-- One point of the sensitivity curve at sampled quantity `q`: the body of
the `for` loop in the `sensitivityData` memo, returning `total / q`. -/
def samplePoint (c : Config) (q : ℚ) : Option ℚ := do
  let goods := goodsEURat c q
  let fr ← calcFreight c q
  let ins := (goods + fr) * (c.insurancePct / 100)
  let customs :=
    if c.incoterm = .CIF then goods + c.localOriginTransport
    else goods + fr + ins + c.localOriginTransport
  let dutyRate :=
    if c.ignoreDuty then 0
    else if c.originTariffEnabled then
      (((c.originDutyMap.lookup c.productOrigin).orElse
          (fun _ => c.originDutyMap.lookup "Outro")).getD 0)
    else c.dutyPct
  let duty := customs * (dutyRate / 100)
  let exVAT := goods + c.localOriginTransport + fr + ins + duty
               + c.brokerageFee + c.portTHC + c.otherFees
  let vatB := customs + duty + c.brokerageFee + c.portTHC + c.otherFees
  let vat := vatB * (c.vatPct / 100)
  let total := exVAT + (if c.vatRecoverable then 0 else vat)
  pure (total / q)

/-- The quantity sampled at loop index `i`:
`Math.round(qMin + (i*(qMax - qMin)/steps))` with `qMin = 10`,
`qMax = max(2000, qty*2)`, `steps = 40`. -/
def sampleQ (c : Config) (i : ℕ) : ℚ :=
  let qMin : ℚ := 10
  let qMax : ℚ := max 2000 (c.qty * 2)
  ((jsRound (qMin + ((i : ℚ) * (qMax - qMin) / 40)) : ℤ) : ℚ)

/-- The `sensitivityData` memo: 41 points `(qty, unit)` for `i = 0..40`. -/
def sensitivityData (c : Config) : List (ℚ × Option ℚ) :=
  (List.range 41).map (fun i => (sampleQ c i, samplePoint c (sampleQ c i)))

/-- The default air tier table (`DEFAULT_AIR_TIERS`). -/
def DEFAULT_AIR_TIERS : List Tier :=
  [⟨some 45, 65/10⟩, ⟨some 100, 58/10⟩, ⟨some 300, 5⟩,
   ⟨some 500, 46/10⟩, ⟨none, 42/10⟩]

/-- The default sea-LCL tier table (`DEFAULT_LCL_TIERS`). -/
def DEFAULT_LCL_TIERS : List Tier :=
  [⟨some 2, 180⟩, ⟨some 5, 150⟩, ⟨some 10, 120⟩, ⟨none, 100⟩]

/-- The default FX table (`DEFAULT_FX`). -/
def DEFAULT_FX : List (String × ℚ) :=
  [("EUR", 1), ("USD", 92/100), ("CNY", 128/1000), ("KRW", 67/100000),
   ("HKD", 118/1000), ("BRL", 18/100)]

/-- The initial React state of App.jsx as a concrete configuration. -/
def cfgDefault : Config where
  productOrigin := "China"
  shipOrigin := "China"
  mode := .aereoCarga
  incoterm := .EXW
  supplierCurrency := "USD"
  unitPrice := 300
  qty := 100
  unitWeightKg := 8/10
  unitLcm := 17
  unitWcm := 8
  unitHcm := 5
  fx := DEFAULT_FX
  insurancePct := 1/2
  brokerageFee := 120
  portTHC := 150
  otherFees := 50
  localOriginTransport := 0
  dutyPct := 0
  ignoreDuty := true
  originTariffEnabled := false
  originDutyMap := [("China", 0), ("Korea", 0), ("Hong Kong", 0), ("Brasil", 0), ("Outro", 0)]
  vatPct := 23
  vatRecoverable := true
  airTiers := DEFAULT_AIR_TIERS
  airVolFactor := 167
  airMinChargeKg := 45
  airFixedFees := 60
  lclTiers := DEFAULT_LCL_TIERS
  lclMinCbm := 1
  lclFixedFees := 120
  fcl20Price := 1800
  fcl40Price := 2300
  fclFixedFees := 300

/-- A minimal all-zero configuration, convenient for concrete instantiation. -/
def cfgZero : Config where
  productOrigin := ""
  shipOrigin := ""
  mode := .maritimoFCL20
  incoterm := .CIF
  supplierCurrency := ""
  unitPrice := 0
  qty := 1
  unitWeightKg := 0
  unitLcm := 0
  unitWcm := 0
  unitHcm := 0
  fx := []
  insurancePct := 0
  brokerageFee := 0
  portTHC := 0
  otherFees := 0
  localOriginTransport := 0
  dutyPct := 0
  ignoreDuty := true
  originTariffEnabled := false
  originDutyMap := []
  vatPct := 0
  vatRecoverable := true
  airTiers := DEFAULT_AIR_TIERS
  airVolFactor := 0
  airMinChargeKg := 0
  airFixedFees := 0
  lclTiers := DEFAULT_LCL_TIERS
  lclMinCbm := 0
  lclFixedFees := 0
  fcl20Price := 0
  fcl40Price := 0
  fclFixedFees := 0

end YEPcustos

/-! ## Helper lemmas -/

namespace YEPcustos

/-- Strict order on optional thresholds: a finite threshold precedes any
larger finite threshold and the unbounded sentinel; the unbounded sentinel
precedes nothing. -/
def thLt (a b : Option ℚ) : Prop :=
  match a, b with
  | some x, some y => x < y
  | some _, none => True
  | none, _ => False

/-- The tier lookup returns the first tier (in list order) whose threshold
admits the chargeable quantity. -/
lemma tierRate_first_match (pre post : List Tier) (t : Tier) (x : ℚ)
    (hpre : ∀ u ∈ pre, leThreshold x u.threshold = false)
    (ht : leThreshold x t.threshold = true) :
    tierRate (pre ++ t :: post) x = some t.rate := by
  have hfind : (pre ++ t :: post).find? (fun u => leThreshold x u.threshold) = some t := by
    induction pre with
    | nil => simp [List.find?_cons_of_pos, ht]
    | cons a as ih =>
        have ha : leThreshold x a.threshold = false := hpre a (by simp)
        rw [List.cons_append, List.find?_cons_of_neg _ (by simp [ha])]
        exact ih (fun u hu => hpre u (by simp [hu]))
  simp [tierRate, hfind]

/-- When the chargeable quantity exceeds every finite threshold of a
non-empty, strictly increasing tier table, the lookup yields the last
rate of the last tier (either by finding the unbounded terminal tier or
through the explicit fallback). -/
lemma tierRate_last (tiers : List Tier) (x : ℚ) (hne : tiers ≠ [])
    (hsorted : (tiers.map Tier.threshold).Chain' thLt)
    (hfin : ∀ t ∈ tiers, ∀ v, t.threshold = some v → v < x) :
    tierRate tiers x = some ((tiers.getLast hne).rate) := by
  induction tiers with
  | nil => exact absurd rfl hne
  | cons a tl ih =>
      cases tl with
      | nil =>
          cases hth : a.threshold with
          | none =>
              simp [tierRate, List.find?_cons_of_pos, leThreshold, hth, List.getLast]
          | some v =>
              have hv : v < x := hfin a (by simp) v hth
              have hfalse : leThreshold x a.threshold = false := by
                simp [leThreshold, hth]
                linarith
              simp [tierRate, List.find?, hfalse, List.getLast]
      | cons b tl2 =>
          have hchain := (List.chain'_cons.mp hsorted)
          cases hth : a.threshold with
          | none =>
              exfalso
              have hab := hchain.1
              rw [hth] at hab
              exact hab
          | some v =>
              have hv : v < x := hfin a (by simp) v hth
              have hfalse : leThreshold x a.threshold = false := by
                simp [leThreshold, hth]
                linarith
              have hstep : tierRate (a :: b :: tl2) x = tierRate (b :: tl2) x := by
                unfold tierRate
                rw [List.find?_cons_of_neg _ (by simp [hfalse]), List.getLast?_cons_cons]
              rw [hstep, ih (by simp) hchain.2
                    (fun u hu w hw => hfin u (by simp [hu]) w hw)]
              congr 1

/-- The freight calculator does not read the configured quantity field (it
takes the quantity as an argument). -/
lemma calcFreight_set_qty (c : Config) (x q : ℚ) :
    calcFreight { c with qty := x } q = calcFreight c q := rfl

/-- The goods value of a configuration with replaced quantity. -/
lemma goodsEUR_set_qty (c : Config) (x : ℚ) :
    goodsEUR { c with qty := x } = goodsEURat c x := rfl

/-- The effective duty rate does not depend on the quantity field. -/
lemma effectiveDutyPct_set_qty (c : Config) (x : ℚ) :
    effectiveDutyPct { c with qty := x } = effectiveDutyPct c := rfl

/-- The body of the sensitivity loop agrees with the single-quantity
pipeline at every non-zero quantity. -/
lemma samplePoint_eq_unitLanded (c : Config) (q : ℚ) (hq : q ≠ 0) :
    samplePoint c q = unitLanded { c with qty := q } := by
  cases hfr : calcFreight c q with
  | none =>
      simp [samplePoint, unitLanded, landedInclVAT, landedExVAT, vatEUR, vatBase,
            dutyEUR, customsBase, insuranceEUR, freightCost,
            calcFreight_set_qty, hfr]
  | some fr =>
      simp [samplePoint, unitLanded, landedInclVAT, landedExVAT, vatEUR, vatBase,
            dutyEUR, customsBase, insuranceEUR, freightCost, goodsEUR_set_qty,
            calcFreight_set_qty, effectiveDutyPct_set_qty,
            effectiveDutyPct, dutyRateFromOrigin, orOne, hq, hfr]
      split <;> split <;> split <;> ring_nf

/-- Every sampled quantity is at least 10 (the fixed floor `qMin`). -/
lemma ten_le_sampleQ (c : Config) (i : ℕ) : (10:ℚ) ≤ sampleQ c i := by
  have h1 : (0:ℚ) ≤ (i:ℚ) * (max 2000 (c.qty * 2) - 10) / 40 := by
    apply div_nonneg _ (by norm_num)
    apply mul_nonneg (by positivity)
    have h := le_max_left (2000:ℚ) (c.qty * 2)
    linarith
  have h2 : (10:ℤ) ≤ jsRound (10 + ((i:ℚ) * (max 2000 (c.qty * 2) - 10) / 40)) := by
    rw [jsRound, Int.le_floor]
    push_cast
    linarith
  simp only [sampleQ]
  exact_mod_cast h2

end YEPcustos

namespace YEPcustos

/-- C1: the tiered freight-rate lookup returns the rate of the first tier
(in list order) whose threshold is at least the chargeable quantity; when
the quantity exceeds every finite threshold of a non-empty, strictly
increasing tier table it returns the rate of the last tier; on the default air
tier set, chargeable weight 45 resolves to 6.5, 100 to 5.8, 301 to 4.6 and
10000 to 4.2. -/
theorem C1_tiered_rate_lookup :
    (∀ (pre post : List Tier) (t : Tier) (x : ℚ),
        (∀ u ∈ pre, leThreshold x u.threshold = false) →
        leThreshold x t.threshold = true →
        tierRate (pre ++ t :: post) x = some t.rate)
    ∧ (∀ (tiers : List Tier) (x : ℚ) (hne : tiers ≠ []),
        (tiers.map Tier.threshold).Chain' thLt →
        (∀ t ∈ tiers, ∀ v, t.threshold = some v → v < x) →
        tierRate tiers x = some ((tiers.getLast hne).rate))
    ∧ tierRate DEFAULT_AIR_TIERS 45 = some (65/10)
    ∧ tierRate DEFAULT_AIR_TIERS 100 = some (58/10)
    ∧ tierRate DEFAULT_AIR_TIERS 301 = some (46/10)
    ∧ tierRate DEFAULT_AIR_TIERS 10000 = some (42/10) := by
  refine ⟨tierRate_first_match, tierRate_last, ?_, ?_, ?_, ?_⟩ <;>
    norm_num [tierRate, DEFAULT_AIR_TIERS, leThreshold, List.find?]

/-- Witness for C1 at concrete inputs: the default LCL tier set resolves a
chargeable volume of 3 m³ to the 5 m³ tier rate 150, and a single finite
tier exceeded by the quantity falls back to its own (last) rate. -/
theorem C1_tiered_rate_lookup_witness :
    tierRate DEFAULT_LCL_TIERS 3 = some 150
    ∧ tierRate [⟨some 5, 9⟩] 7 = some 9 := by
  constructor
  · have h := C1_tiered_rate_lookup.1 [⟨some 2, 180⟩] [⟨some 10, 120⟩, ⟨none, 100⟩]
      ⟨some 5, 150⟩ 3
      (by intro u hu; simp at hu; subst hu; norm_num [leThreshold])
      (by norm_num [leThreshold])
    simpa [DEFAULT_LCL_TIERS] using h
  · have h := C1_tiered_rate_lookup.2.1 [⟨some 5, 9⟩] 7 (by simp)
      (by simp)
      (by intro t ht v hv; simp at ht; subst ht; simp at hv; subst hv; norm_num)
    simpa [List.getLast] using h

end YEPcustos

namespace YEPcustos

/-- C2: every point of the sensitivity curve records exactly the unit
landed cost that the single-quantity pipeline produces when the configured
quantity is replaced by the sampled quantity, all other parameters fixed. -/
theorem C2_sampler_refines_pipeline (c : Config) (p : ℚ × Option ℚ)
    (hp : p ∈ sensitivityData c) :
    p.2 = unitLanded { c with qty := p.1 } := by
  simp only [sensitivityData, List.mem_map, List.mem_range] at hp
  obtain ⟨i, -, rfl⟩ := hp
  have h10 := ten_le_sampleQ c i
  exact samplePoint_eq_unitLanded c (sampleQ c i) (by intro h; rw [h] at h10; norm_num at h10)

/-- Witness for C2: the first sampled point of the all-zero configuration
agrees with the pipeline at that quantity. -/
theorem C2_sampler_refines_pipeline_witness :
    samplePoint cfgZero (sampleQ cfgZero 0) =
      unitLanded { cfgZero with qty := sampleQ cfgZero 0 } := by
  have h := C2_sampler_refines_pipeline cfgZero
    (sampleQ cfgZero 0, samplePoint cfgZero (sampleQ cfgZero 0))
    (by simp [sensitivityData]; exact ⟨0, by norm_num, rfl, rfl⟩)
  simpa using h

/-- C3: the customs base is goods value plus local-origin transport under
CIF, and goods value plus freight plus insurance plus local-origin
transport under EXW or FOB. -/
theorem C3_customs_base (c : Config) (fr ins : ℚ)
    (hfr : freightCost c = some fr) (hins : insuranceEUR c = some ins) :
    (c.incoterm = .CIF →
      customsBase c = some (goodsEUR c + c.localOriginTransport))
    ∧ ((c.incoterm = .EXW ∨ c.incoterm = .FOB) →
      customsBase c = some (goodsEUR c + fr + ins + c.localOriginTransport)) := by
  constructor
  · intro h
    simp [customsBase, hfr, hins, h]
  · intro h
    have hnc : c.incoterm ≠ .CIF := by rcases h with h | h <;> simp [h]
    simp [customsBase, hfr, hins, hnc]

/-- Witness for C3 at the all-zero CIF configuration, whose freight and
insurance are both 0. -/
theorem C3_customs_base_witness :
    customsBase cfgZero = some (goodsEUR cfgZero + cfgZero.localOriginTransport) := by
  have hfr : freightCost cfgZero = some 0 := by
    norm_num [freightCost, calcFreight, cfgZero, unitVolumeM3, jsCeil, FCL_CAPACITY_20]
  have hins : insuranceEUR cfgZero = some 0 := by
    rw [insuranceEUR, hfr]
    norm_num [goodsEUR, goodsEURat, fxRate, cfgZero]
  exact (C3_customs_base cfgZero 0 0 hfr hins).1 rfl

end YEPcustos

namespace YEPcustos

/-- Counterexample to C4: with an empty air tier table the freight
calculation does not succeed — the tier lookup has no last rate and the
code throws (modelled as `none`). -/
theorem C4_counterexample :
    calcFreight { cfgDefault with airTiers := [] } 1 = none := rfl

/-- C4 (amended): when the chargeable quantity exceeds all finite
thresholds of a NON-EMPTY tier table the freight calculation succeeds and
applies the rate of the last tier; on an empty tier table the lookup yields no
rate and the air / sea-LCL freight calculation fails instead of totalizing. -/
theorem C4_tier_fallback (tiers : List Tier) (x : ℚ) (hne : tiers ≠ [])
    (hsorted : (tiers.map Tier.threshold).Chain' thLt)
    (hfin : ∀ t ∈ tiers, ∀ v, t.threshold = some v → v < x) :
    tierRate tiers x = some ((tiers.getLast hne).rate)
    ∧ (∀ y, tierRate [] y = none)
    ∧ (∀ (c : Config) q, (c.mode = Mode.aereoExpress ∨ c.mode = Mode.aereoCarga) →
        c.airTiers = [] → calcFreight c q = none)
    ∧ (∀ (c : Config) q, c.mode = Mode.maritimoLCL →
        c.lclTiers = [] → calcFreight c q = none) := by
  refine ⟨tierRate_last tiers x hne hsorted hfin, fun y => rfl, ?_, ?_⟩
  · rintro c q (hm | hm) ht <;> simp [calcFreight, hm, ht, tierRate]
  · rintro c q hm ht
    simp [calcFreight, hm, ht, tierRate]

/-- Witness for C4 (amended) at a one-tier table exceeded by the quantity. -/
theorem C4_tier_fallback_witness :
    tierRate [⟨some 4, 11⟩] 6 = some 11 := by
  have h := (C4_tier_fallback [⟨some 4, 11⟩] 6 (by simp) (by simp)
    (by intro t ht v hv; simp at ht; subst ht; simp at hv; subst hv; norm_num)).1
  simpa [List.getLast] using h

/-- C5: the unit landed cost divides the VAT-inclusive landed cost by the
quantity when the quantity is at least 1, and by 1 when the quantity is 0
(the divisor is clamped), i.e. by max(quantity, 1) on that domain. -/
theorem C5_unit_landed (c : Config) (h : c.qty = 0 ∨ 1 ≤ c.qty) :
    unitLanded c = (landedInclVAT c).map (fun t => t / max c.qty 1) := by
  have hd : orOne c.qty = max c.qty 1 := by
    rcases h with h | h
    · simp [orOne, h]
    · have hne : c.qty ≠ 0 := by linarith
      simp [orOne, hne, max_eq_left h]
  simp [unitLanded, hd]

/-- Witness for C5 at the default configuration (quantity 100). -/
theorem C5_unit_landed_witness :
    unitLanded cfgDefault =
      (landedInclVAT cfgDefault).map (fun t => t / max cfgDefault.qty 1) :=
  C5_unit_landed cfgDefault (Or.inr (by norm_num [cfgDefault]))

/-- C6: the VAT-inclusive landed cost equals the VAT-exclusive landed cost
when VAT is recoverable, and the VAT-exclusive landed cost plus the VAT
amount when it is not. -/
theorem C6_vat_recoverable (c : Config) :
    landedInclVAT c =
      if c.vatRecoverable then landedExVAT c
      else (landedExVAT c).bind (fun ex => (vatEUR c).map (fun v => ex + v)) := by
  cases hfr : freightCost c with
  | none =>
      simp [landedInclVAT, landedExVAT, vatEUR, vatBase, dutyEUR, customsBase,
            insuranceEUR, hfr]
  | some fr =>
      simp only [landedInclVAT, landedExVAT, vatEUR, vatBase, dutyEUR, customsBase,
            insuranceEUR, hfr, Option.map_some, Option.bind_some, Option.some_bind,
            Option.pure_def, Option.bind_eq_bind]
      by_cases hv : c.vatRecoverable <;> simp [hv]

/-- C7: with duty ignored the effective duty rate is 0 and the duty amount
is exactly 0, regardless of the manual percentage or origin table; with
duty not ignored the effective rate is the origin-table lookup (falling
back to the "Outro" entry, then 0) when origin tariffs are enabled, else
the manual percentage. -/
theorem C7_duty_policy (c : Config) :
    (c.ignoreDuty = true →
      effectiveDutyPct c = 0 ∧ ∀ b, customsBase c = some b → dutyEUR c = some 0)
    ∧ (c.ignoreDuty = false →
      effectiveDutyPct c =
        if c.originTariffEnabled then
          (((c.originDutyMap.lookup c.productOrigin).orElse
              (fun _ => c.originDutyMap.lookup "Outro")).getD 0)
        else c.dutyPct) := by
  constructor
  · intro h
    have he : effectiveDutyPct c = 0 := by simp [effectiveDutyPct, h]
    refine ⟨he, fun b hb => ?_⟩
    simp [dutyEUR, hb, he]
  · intro h
    simp [effectiveDutyPct, h, dutyRateFromOrigin]

/-- A configuration with duty ignored but a non-zero manual rate and a
non-zero origin duty table. -/
def cfgDuty : Config :=
  { cfgZero with dutyPct := 50, originTariffEnabled := true, originDutyMap := [("China", 30)] }

/-- Witness for C7: duty ignored with a non-zero manual rate and a
non-zero origin table still yields rate 0 and duty amount 0. -/
theorem C7_duty_policy_witness :
    effectiveDutyPct cfgDuty = 0 ∧ dutyEUR cfgDuty = some 0 := by
  have h := (C7_duty_policy cfgDuty).1 rfl
  refine ⟨h.1, h.2 0 ?_⟩
  have hfr : freightCost cfgDuty = some 0 := by
    norm_num [freightCost, calcFreight, cfgDuty, cfgZero, unitVolumeM3, jsCeil,
      FCL_CAPACITY_20]
  have hins : insuranceEUR cfgDuty = some 0 := by
    rw [insuranceEUR, hfr]
    norm_num [goodsEUR, goodsEURat, fxRate, cfgDuty, cfgZero]
  rw [customsBase, hfr, hins]
  norm_num [goodsEUR, goodsEURat, fxRate, cfgDuty, cfgZero]

end YEPcustos

namespace YEPcustos

/-- C8: in a sea-FCL mode the freight cost is the container count (the
ceiling of total volume over per-container capacity, at least 1) times the
per-container price plus fixed fees, with no utilization term; a volume of
70 m³ against the 20ft capacity 33.2 m³ needs 3 containers. -/
theorem C8_fcl_containers (c : Config) (q : ℚ) :
    (c.mode = Mode.maritimoFCL20 →
      calcFreight c q =
        some (c.fcl20Price * ((max 1 ⌈unitVolumeM3 c * q / FCL_CAPACITY_20⌉ : ℤ) : ℚ)
              + c.fclFixedFees))
    ∧ (c.mode = Mode.maritimoFCL40 →
      calcFreight c q =
        some (c.fcl40Price * ((max 1 ⌈unitVolumeM3 c * q / FCL_CAPACITY_40⌉ : ℤ) : ℚ)
              + c.fclFixedFees))
    ∧ fclContainers 70 FCL_CAPACITY_20 = 3 := by
  refine ⟨fun h => by simp [calcFreight, h, jsCeil],
          fun h => by simp [calcFreight, h, jsCeil], ?_⟩
  have h : jsCeil (70 / FCL_CAPACITY_20) = 3 := by
    rw [jsCeil, Int.ceil_eq_iff]
    norm_num [FCL_CAPACITY_20]
  norm_num [fclContainers, h]

/-- Witness for C8 at the all-zero 20ft configuration and quantity 1. -/
theorem C8_fcl_containers_witness :
    calcFreight cfgZero 1 =
      some (cfgZero.fcl20Price
            * ((max 1 ⌈unitVolumeM3 cfgZero * 1 / FCL_CAPACITY_20⌉ : ℤ) : ℚ)
            + cfgZero.fclFixedFees) :=
  (C8_fcl_containers cfgZero 1).1 rfl

/-- C9: a supplier currency absent from the FX table is converted at rate
1, so the goods value is unit price times quantity, in the main pipeline
and at every quantity sampled by the sensitivity curve. -/
theorem C9_missing_fx_rate (c : Config)
    (h : c.fx.lookup c.supplierCurrency = none) :
    goodsEUR c = c.unitPrice * c.qty ∧ ∀ q, goodsEURat c q = c.unitPrice * q := by
  have hr : fxRate c = 1 := by simp [fxRate, h]
  exact ⟨by simp [goodsEUR, goodsEURat, hr], fun q => by simp [goodsEURat, hr]⟩

/-- A configuration whose supplier currency is missing from the FX table. -/
def cfgNoFx : Config := { cfgZero with unitPrice := 7, qty := 3 }

/-- Witness for C9: with an empty FX table the goods value is 7 × 3 = 21. -/
theorem C9_missing_fx_rate_witness : goodsEUR cfgNoFx = 21 := by
  have h := (C9_missing_fx_rate cfgNoFx rfl).1
  rw [h]
  norm_num [cfgNoFx, cfgZero]

/-- C10: the shipment origin influences no computed number — freight,
insurance, customs base, duty, VAT, landed totals, unit cost and the whole
sensitivity curve are unchanged when only `shipOrigin` varies. -/
theorem C10_ship_origin_noninterference (c : Config) (o : String) :
    freightCost { c with shipOrigin := o } = freightCost c
    ∧ insuranceEUR { c with shipOrigin := o } = insuranceEUR c
    ∧ customsBase { c with shipOrigin := o } = customsBase c
    ∧ dutyEUR { c with shipOrigin := o } = dutyEUR c
    ∧ vatBase { c with shipOrigin := o } = vatBase c
    ∧ vatEUR { c with shipOrigin := o } = vatEUR c
    ∧ landedExVAT { c with shipOrigin := o } = landedExVAT c
    ∧ landedInclVAT { c with shipOrigin := o } = landedInclVAT c
    ∧ unitLanded { c with shipOrigin := o } = unitLanded c
    ∧ sensitivityData { c with shipOrigin := o } = sensitivityData c :=
  ⟨rfl, rfl, rfl, rfl, rfl, rfl, rfl, rfl, rfl, rfl⟩

end YEPcustos
